import Mathlib

/-!
# Verification of the spectral-index computation core

Shallow embedding of the computational core of an agricultural crop-health
monitoring service: the spectral-index functions (`backend/utils/ndvi.py`),
the hyperspectral index/pest-risk analyzer
(`backend/utils/hyperspectral_analysis.py`) and the prediction ensemble
(`backend/utils/real_model.py`).  Band arrays are embedded as `List ℚ`
(numpy float arrays, exact rational arithmetic), per-pixel operations as
functions `ℚ → ℚ` mapped over the lists.
-/

namespace CropHealth

/-! ## Index Engine — `backend/utils/ndvi.py` -/

/-- `np.clip(x, -1, 1)`: clamp a value to the interval `[-1, 1]`. -/
def clip1 (x : ℚ) : ℚ := min 1 (max (-1) x)

/-- One pixel of `calculate_ndvi(red_band, nir_band)`:
`denominator = nir + red`, replaced by `1e-10` when it is exactly zero
(`np.where(denominator == 0, 1e-10, denominator)`), then
`(nir - red) / denominator`, clipped to `[-1, 1]`. -/
def ndviPixel (red nir : ℚ) : ℚ :=
  let d : ℚ := nir + red
  let d : ℚ := if d = 0 then 1 / 10000000000 else d
  clip1 ((nir - red) / d)

/-- One pixel of `calculate_ndwi(nir_band, swir_band)`:
`(nir - swir) / (nir + swir)` with the same `1e-10` substitution and clip. -/
def ndwiPixel (nir swir : ℚ) : ℚ :=
  let d : ℚ := nir + swir
  let d : ℚ := if d = 0 then 1 / 10000000000 else d
  clip1 ((nir - swir) / d)

/-- One pixel of `calculate_mndwi(green_band, swir_band)`:
`(green - swir) / (green + swir)` with the same `1e-10` substitution and clip. -/
def mndwiPixel (green swir : ℚ) : ℚ :=
  let d : ℚ := green + swir
  let d : ℚ := if d = 0 then 1 / 10000000000 else d
  clip1 ((green - swir) / d)

/-- One pixel of `calculate_ndsi(green_band, swir_band)`:
the source computes `(green - swir) / (green + swir)` (its docstring says
`NDSI = (GREEN - SWIR) / (GREEN + SWIR)`), with the same `1e-10`
substitution and clip.  Note this is algebraically identical to
`mndwiPixel`. -/
def ndsiPixel (green swir : ℚ) : ℚ :=
  let d : ℚ := green + swir
  let d : ℚ := if d = 0 then 1 / 10000000000 else d
  clip1 ((green - swir) / d)

/-- `calculate_ndvi` on whole band arrays.  On empty input the array
arithmetic yields an empty array and the `logger.info` line then raises
(`np.min` of a zero-size array), so the `except` branch returns
`np.array([])`; in both cases the returned value is the elementwise map,
which is `[]` for empty input.  The function never signals a failure to
its caller: it always returns an array. -/
def calculate_ndvi (red nir : List ℚ) : List ℚ := List.zipWith ndviPixel red nir

/-- `calculate_ndwi` on whole band arrays (same structure as
`calculate_ndvi`). -/
def calculate_ndwi (nir swir : List ℚ) : List ℚ := List.zipWith ndwiPixel nir swir

/-- `calculate_mndwi` on whole band arrays. -/
def calculate_mndwi (green swir : List ℚ) : List ℚ := List.zipWith mndwiPixel green swir

/-- `calculate_ndsi` on whole band arrays. -/
def calculate_ndsi (green swir : List ℚ) : List ℚ := List.zipWith ndsiPixel green swir

/-! ## Hyperspectral analyzer — `HyperspectralAnalyzer.calculate_spectral_indices` -/

/-- One pixel of the analyzer's NDVI:
`np.where((nir + red) != 0, (nir - red) / (nir + red), 0)` — zero where the
denominator is exactly zero, and NOT clipped. -/
def hyperNdviPixel (red nir : ℚ) : ℚ :=
  if nir + red ≠ 0 then (nir - red) / (nir + red) else 0

/-- One pixel of the analyzer's NDWI:
`np.where((nir + swir) != 0, (nir - swir) / (nir + swir), 0)`. -/
def hyperNdwiPixel (nir swir : ℚ) : ℚ :=
  if nir + swir ≠ 0 then (nir - swir) / (nir + swir) else 0

/-- One pixel of the analyzer's MNDWI:
`np.where((green + swir) != 0, (green - swir) / (green + swir), 0)`. -/
def hyperMndwiPixel (green swir : ℚ) : ℚ :=
  if green + swir ≠ 0 then (green - swir) / (green + swir) else 0

/-- One pixel of the analyzer's NDSI:
`np.where((swir + green) != 0, (swir - green) / (swir + green), 0)` —
note the sign is opposite to `ndsiPixel` from `ndvi.py`. -/
def hyperNdsiPixel (green swir : ℚ) : ℚ :=
  if swir + green ≠ 0 then (swir - green) / (swir + green) else 0

/-- One pixel of the analyzer's red-edge NDVI approximation:
`np.where((nir*1.1 + red*0.9) != 0, (nir*1.1 - red*0.9) / (nir*1.1 + red*0.9), 0)`. -/
def hyperRedEdgeNdviPixel (red nir : ℚ) : ℚ :=
  if nir * (11/10) + red * (9/10) ≠ 0 then
    (nir * (11/10) - red * (9/10)) / (nir * (11/10) + red * (9/10))
  else 0

/-- The elementwise index arrays produced by `calculate_spectral_indices`
(the per-index summary statistics are derived from these `values` lists
and are not needed here). -/
structure SpectralIndices where
  ndvi : List ℚ
  ndwi : List ℚ
  mndwi : List ℚ
  ndsi : List ℚ
  red_edge_ndvi : List ℚ
  deriving Repr, DecidableEq

/-- `HyperspectralAnalyzer.calculate_spectral_indices` with `real_ndvi=None`:
if `len(red) == 0 or len(nir) == 0` it raises
`ValueError("Insufficient spectral data")`, which its own handler catches,
returning the empty dict `{}` — embedded as `none`.  Otherwise it returns
the five unclipped index arrays. -/
def calculate_spectral_indices (red green nir swir : List ℚ) : Option SpectralIndices :=
  if red.length = 0 ∨ nir.length = 0 then none
  else some
    { ndvi := List.zipWith hyperNdviPixel red nir
      ndwi := List.zipWith hyperNdwiPixel nir swir
      mndwi := List.zipWith hyperMndwiPixel green swir
      ndsi := List.zipWith hyperNdsiPixel green swir
      red_edge_ndvi := List.zipWith hyperRedEdgeNdviPixel red nir }

/-- Projection used to state theorems about the analyzer's NDVI array. -/
def spectralNdvi (o : Option SpectralIndices) : Option (List ℚ) :=
  Option.map SpectralIndices.ndvi o

/-! ## Interpretation layer — `interpret_ndvi`, `interpret_ndwi`, `interpret_ndsi`

Each function is a `try` body (a threshold cascade on a numeric value,
plus a confidence formula) with an `except` handler returning a neutral
placeholder `{status: Unknown, score: 50, confidence: 50}`.  A numeric
input is embedded as `some q`; an input whose comparisons raise (a
non-numeric payload), taking the handler path, is embedded as `none`. -/

/-- Result record of `interpret_ndvi` (the rounded display copy of the
input value is omitted; rounding is presentation only). -/
structure NdviInterp where
  status : String
  description : String
  health_score : ℚ
  color : String
  confidence : ℚ
  deriving Repr, DecidableEq

/-- Result record of `interpret_ndwi`. -/
structure NdwiInterp where
  status : String
  description : String
  water_score : ℚ
  color : String
  confidence : ℚ
  deriving Repr, DecidableEq

/-- Result record of `interpret_ndsi`. -/
structure NdsiInterp where
  status : String
  description : String
  snow_score : ℚ
  color : String
  confidence : ℚ
  deriving Repr, DecidableEq

/-- The `try` body of `interpret_ndvi(ndvi_value)`: cascade of strict
upper-bound checks, then `confidence = min(95, max(60, health_score))`. -/
def interpretNdviVal (x : ℚ) : NdviInterp :=
  let b : String × String × ℚ × String :=
    if x < 0 then ("Poor", "No vegetation or stressed vegetation", 0, "#FF4444")
    else if x < 1/5 then ("Poor", "Sparse vegetation or bare soil", 20, "#FF6644")
    else if x < 2/5 then ("Moderate", "Moderate vegetation density", 50, "#FFAA44")
    else if x < 3/5 then ("Good", "Healthy vegetation", 75, "#88CC44")
    else ("Excellent", "Dense, very healthy vegetation", 90, "#44AA44")
  { status := b.1, description := b.2.1, health_score := b.2.2.1, color := b.2.2.2
    confidence := min 95 (max 60 b.2.2.1) }

/-- `interpret_ndvi`: numeric input takes the cascade, a failing input
takes the `except` handler. -/
def interpret_ndvi (o : Option ℚ) : NdviInterp :=
  match o with
  | some x => interpretNdviVal x
  | none =>
    { status := "Unknown", description := "Error interpreting NDVI value"
      health_score := 50, color := "#888888", confidence := 50 }

/-- The `try` body of `interpret_ndwi(ndwi_value)`: strict lower-bound
cascade, then `confidence = min(95, max(60, abs(ndwi_value) * 100))`. -/
def interpretNdwiVal (x : ℚ) : NdwiInterp :=
  let b : String × String × ℚ × String :=
    if x > 3/10 then
      ("High Water Content", "Strong water presence or very moist vegetation", 90, "#0077BE")
    else if x > 1/10 then
      ("Moderate Water Content", "Water bodies or moist vegetation", 70, "#4A9FDB")
    else if x > -(1/10) then
      ("Low Water Content", "Slightly moist soil or sparse vegetation", 40, "#87CEEB")
    else ("No Water", "Dry vegetation, bare soil, or built-up areas", 10, "#8B4513")
  { status := b.1, description := b.2.1, water_score := b.2.2.1, color := b.2.2.2
    confidence := min 95 (max 60 (|x| * 100)) }

/-- `interpret_ndwi`, with the `except` handler path as `none`. -/
def interpret_ndwi (o : Option ℚ) : NdwiInterp :=
  match o with
  | some x => interpretNdwiVal x
  | none =>
    { status := "Unknown", description := "Error interpreting NDWI value"
      water_score := 50, color := "#888888", confidence := 50 }

/-- The `try` body of `interpret_ndsi(ndsi_value)`: strict lower-bound
cascade, then `confidence = min(95, max(60, abs(ndsi_value) * 100))`. -/
def interpretNdsiVal (x : ℚ) : NdsiInterp :=
  let b : String × String × ℚ × String :=
    if x > 2/5 then ("Snow/Ice Present", "Strong snow or ice cover", 90, "#FFFFFF")
    else if x > 1/10 then
      ("Possible Snow/Ice", "Light snow cover or mixed snow-vegetation", 60, "#F0F8FF")
    else if x > -(1/10) then
      ("No Snow", "Clear ground or sparse vegetation", 20, "#90EE90")
    else ("Vegetation/Water", "Vegetation or water bodies (no snow)", 5, "#228B22")
  { status := b.1, description := b.2.1, snow_score := b.2.2.1, color := b.2.2.2
    confidence := min 95 (max 60 (|x| * 100)) }

/-- `interpret_ndsi`, with the `except` handler path as `none`. -/
def interpret_ndsi (o : Option ℚ) : NdsiInterp :=
  match o with
  | some x => interpretNdsiVal x
  | none =>
    { status := "Unknown", description := "Error interpreting NDSI value"
      snow_score := 50, color := "#888888", confidence := 50 }

/-! ## Land-cover classifier — `create_index_stack_analysis` -/

/-- The per-pixel classification loop body of `create_index_stack_analysis`:
first match wins, in source order; label codes are
1 Water, 2 Snow/Ice, 3 Dense Vegetation, 4 Sparse Vegetation,
5 Bare Soil/Rock, 6 Urban/Built-up (0, Unknown, is the initial fill). -/
def classifyPixel (ndvi ndwi mndwi ndsi : ℚ) : ℕ :=
  if ndsi > 2/5 then 2
  else if mndwi > 3/10 ∨ ndwi > 3/10 then 1
  else if ndvi > 3/5 then 3
  else if ndvi > 1/5 then 4
  else if ndvi < -(1/10) then 6
  else 5

/-- The label-code → name map (`land_cover_map`) of
`create_index_stack_analysis`. -/
def labelName (code : ℕ) : String :=
  if code = 0 then "Unknown"
  else if code = 1 then "Water"
  else if code = 2 then "Snow/Ice"
  else if code = 3 then "Dense Vegetation"
  else if code = 4 then "Sparse Vegetation"
  else if code = 5 then "Bare Soil/Rock"
  else "Urban/Built-up"

/-- `min([len(arr) for arr in [ndvi, ndwi, mndwi, ndsi] if len(arr) > 0])`:
minimum over the lengths of the non-empty arrays; Python `min` of an empty
list raises (all four arrays empty), which the handler turns into the
error result — embedded as `none`. -/
def minCommonLength (ndvi ndwi mndwi ndsi : List ℚ) : Option ℕ :=
  (([ndvi.length, ndwi.length, mndwi.length, ndsi.length].filter (fun l => 0 < l)).min?)

/-- `arr[:n] if len(arr) > 0 else np.full(n, c)`: truncate a non-empty
array to the common length, backfill an absent one with a neutral
constant. -/
def backfill (xs : List ℚ) (n : ℕ) (c : ℚ) : List ℚ :=
  if 0 < xs.length then xs.take n else List.replicate n c

/-- The per-pixel label array computed by `create_index_stack_analysis`
(`none` when all four index arrays are empty, in which case the source
returns `{'error': 'No valid index data provided'}`; its explicit
`min_length == 0` check is unreachable because `min` only ranges over
positive lengths). -/
def landCoverLabels (ndvi ndwi mndwi ndsi : List ℚ) : Option (List ℕ) :=
  match minCommonLength ndvi ndwi mndwi ndsi with
  | none => none
  | some n =>
    let v := backfill ndvi n (1/2)
    let w := backfill ndwi n 0
    let m := backfill mndwi n 0
    let s := backfill ndsi n 0
    some ((List.range n).map (fun i => classifyPixel (v.getD i 0) (w.getD i 0) (m.getD i 0) (s.getD i 0)))

/-! ## Pest-risk assessor — `HyperspectralAnalyzer.assess_pest_risk` helpers -/

/-- The `risk_factors` dict assembled in `assess_pest_risk`. -/
structure RiskFactors where
  environmental : ℚ
  spectral_stress : ℚ
  seasonal : ℚ
  deriving Repr, DecidableEq

/-- `_assess_environmental_pest_risk(temp, humidity, crop_type, latitude)`
(the `crop_type` argument is unused in the source body). -/
def assessEnvironmentalPestRisk (temp humidity latitude : ℚ) : ℚ :=
  let r : ℚ :=
    if 22 ≤ temp ∧ temp ≤ 32 then 3/10
    else if temp > 35 ∨ temp < 15 then 1/10
    else 1/5
  let r : ℚ := r +
    (if humidity > 75 then 2/5 else if humidity < 40 then 3/10 else 1/5)
  let r : ℚ := r + (if |latitude| < 35 then 1/5 else 0)
  min r 1

/-- `_assess_spectral_stress(ndvi_mean, ndvi_std, ndwi_mean)`. -/
def assessSpectralStress (ndviMean ndviStd ndwiMean : ℚ) : ℚ :=
  let s : ℚ := if ndviMean < 2/5 then 2/5 else if ndviMean < 3/5 then 1/5 else 0
  let s : ℚ := s +
    (if ndviStd > 3/20 then 3/10 else if ndviStd > 1/10 then 1/5 else 0)
  let s : ℚ := s + (if ndwiMean < 1/5 then 3/10 else 0)
  min s 1

/-- `_assess_seasonal_pest_risk(latitude, crop_type)`; the source reads
`datetime.now().month`, made an explicit `month` argument here. -/
def assessSeasonalPestRisk (latitude : ℚ) (cropType : String) (month : ℕ) : ℚ :=
  if latitude > 0 then
    if (cropType = "rice" ∨ cropType = "cotton") ∧ (month = 6 ∨ month = 7 ∨ month = 8) then 4/5
    else if cropType = "wheat" ∧ (month = 3 ∨ month = 4 ∨ month = 5) then 3/5
    else 2/5
  else
    if month = 12 ∨ month = 1 ∨ month = 2 then 7/10
    else 2/5

/-- `np.mean(list(risk_factors.values()))`: the UNWEIGHTED mean of the
three factors, used by `_calculate_specific_pest_risks` as `base_risk`. -/
def baseRisk (rf : RiskFactors) : ℚ :=
  (rf.environmental + rf.spectral_stress + rf.seasonal) / 3

/-- `_calculate_overall_pest_risk(risk_factors)`: the 0.4/0.35/0.25
weighted combination, clamped to at most 1. -/
def overallPestRisk (rf : RiskFactors) : ℚ :=
  min (rf.environmental * (2/5) + rf.spectral_stress * (7/20) + rf.seasonal * (1/4)) 1

/-- `_categorize_risk_level(risk_score)`. -/
def categorizeRiskLevel (risk : ℚ) : String :=
  if risk ≥ 7/10 then "high" else if risk ≥ 2/5 then "medium" else "low"

/-- `_calculate_specific_pest_risks(risk_factors, crop_type, temp, humidity)`:
a per-crop association list `pest name → base_risk × multiplier`, where
`base_risk` is the unweighted mean of the factors. -/
def specificPestRisks (rf : RiskFactors) (cropType : String) (temp humidity : ℚ) :
    List (String × ℚ) :=
  let b := baseRisk rf
  if cropType = "rice" then
    [("brown_planthopper", if humidity > 80 then b * (9/10) else b * (3/5)),
     ("rice_blast", if humidity > 75 ∧ temp > 25 then b * (4/5) else b * (2/5)),
     ("stem_borer", b * (7/10)),
     ("leaf_folder", if temp > 28 then b * (3/5) else b * (2/5))]
  else if cropType = "cotton" then
    [("bollworm", if 25 < temp ∧ temp < 35 then b * (4/5) else b * (1/2)),
     ("aphids", if humidity < 60 then b * (7/10) else b * (2/5)),
     ("whitefly", if temp > 30 then b * (9/10) else b * (3/5)),
     ("thrips", b * (3/5))]
  else if cropType = "wheat" then
    [("rust", if humidity > 70 then b * (4/5) else b * (3/10)),
     ("aphids", b * (7/10)),
     ("termites", if humidity < 50 then b * (1/2) else b * (3/10)),
     ("army_worm", if temp > 25 then b * (3/5) else b * (2/5))]
  else
    [("aphids", b * (3/5)),
     ("spider_mites", if humidity < 50 then b * (1/2) else b * (3/10)),
     ("thrips", b * (1/2)),
     ("fungal_diseases", if humidity > 75 then b * (7/10) else b * (2/5))]

/-! ## Prediction ensemble — `RealAgriculturalModel.predict` -/

/-- The fitted state stored by `train_model`: the two regressors and the
feature scaler, abstracted as functions on the scaled/raw feature rows
(their fitted tree internals live in sklearn, outside this repository);
the ensemble weights 0.6/0.4 are fixed constants applied in `predict`. -/
structure TrainedModel where
  rfPredict : List ℚ → ℚ
  gbPredict : List ℚ → ℚ
  scale : List ℚ → List ℚ

/-- A successful single-row prediction result (`round` of the display
values omitted). -/
structure PredictionOk where
  health_score : ℚ
  status : String
  confidence : ℚ
  ndvi_value : ℚ
  deriving Repr

/-- The `except` branch result of `predict`: an error record carrying the
exception message and neutral placeholder values. -/
structure PredictionError where
  error : String
  health_score : ℚ
  status : String
  confidence : ℚ
  deriving Repr, DecidableEq

/-- The caller-observed outcome of `predict`: a plain result dict, or the
error dict (which is distinguished by its `error` key). -/
inductive PredictOutcome where
  | ok : PredictionOk → PredictOutcome
  | err : PredictionError → PredictOutcome

/-- The exception message raised when `self.model is None`. -/
def modelNotTrainedMsg : String := "Model not trained. Call train_model() first."

/-- Feature-width normalization in `predict`: pad with `0.5` to 9 slots,
or truncate to the first 9. -/
def padTo9 (features : List ℚ) : List ℚ :=
  if features.length < 9 then features ++ List.replicate (9 - features.length) (1/2)
  else features.take 9

/-- Status/confidence cut points applied to the ensemble score. -/
def scoreStatus (score : ℚ) : String × ℚ :=
  if score ≥ 80 then ("Excellent", 95)
  else if score ≥ 70 then ("Good", 90)
  else if score ≥ 50 then ("Moderate", 85)
  else if score ≥ 30 then ("Poor", 80)
  else ("Critical", 75)

/-- `RealAgriculturalModel.predict` on a single feature row.  The model
state is `none` before `train_model` has run (`self.model is None`): the
body then raises `ValueError("Model not trained. Call train_model() first.")`,
caught by the handler, which returns the error dict.  When trained, the
row is width-normalized, scaled, and scored with the 0.6/0.4 weighted
ensemble. -/
def predict (model : Option TrainedModel) (features : List ℚ) : PredictOutcome :=
  match model with
  | none =>
    .err { error := modelNotTrainedMsg, health_score := 50, status := "Unknown", confidence := 50 }
  | some m =>
    let fs := padTo9 features
    let scaled := m.scale fs
    let score := (3/5) * m.rfPredict scaled + (2/5) * m.gbPredict scaled
    let sc := scoreStatus score
    .ok { health_score := score, status := sc.1, confidence := sc.2
          ndvi_value := fs.getD 0 (1/2) }

/-! ## Helper lemmas -/

/-- `clip1` always lands in `[-1, 1]`. -/
theorem clip1_mem (x : ℚ) : -1 ≤ clip1 x ∧ clip1 x ≤ 1 :=
  ⟨le_min (by norm_num) (le_max_left _ _), min_le_left _ _⟩

/-- `clip1` of a negative value is negative. -/
theorem clip1_neg {x : ℚ} (hx : x < 0) : clip1 x < 0 :=
  lt_of_le_of_lt (min_le_right _ _) (max_lt (by norm_num) hx)

/-- A normalized difference `(a-b)/(a+b)` of nonnegative values with
nonzero denominator lies in `[-1, 1]`. -/
theorem ratio_bounds (a b : ℚ) (ha : 0 ≤ a) (hb : 0 ≤ b) (h : a + b ≠ 0) :
    -1 ≤ (a - b) / (a + b) ∧ (a - b) / (a + b) ≤ 1 := by
  have hpos : 0 < a + b := lt_of_le_of_ne (by positivity) (Ne.symm h)
  constructor
  · rw [le_div_iff₀ hpos]
    linarith
  · rw [div_le_one hpos]
    linarith

/-- The confidence formula `min(95, max(60, s))` lies in `[60, 95]`. -/
theorem conf_bounds (s : ℚ) : 60 ≤ min 95 (max 60 s) ∧ min 95 (max 60 s) ≤ 95 :=
  ⟨le_min (by norm_num) (le_max_left _ _), min_le_left _ _⟩

/-! ## Claims -/

/-- C1 counterexample.  The claim says a zero-denominator pixel always
yields 0 even with a nonzero numerator; but `calculate_ndvi` on
`red = [-1]`, `nir = [1]` (denominator `nir + red = 0`, numerator `2`)
substitutes the `1e-10` epsilon, computes `2e10`, and clips it to `1`,
not `0`. -/
theorem C1_counterexample :
    calculate_ndvi [-1] [1] = [1] ∧ (1 : ℚ) ≠ 0 := by
  constructor
  · simp only [calculate_ndvi, List.zipWith, ndviPixel, clip1]
    norm_num [min_def, max_def]
  · norm_num

/-- C1 amended: in the hyperspectral-analysis index computation every
zero-denominator pixel yields 0, for all five indices, even with nonzero
numerator; in the `ndvi.py` index functions the epsilon substitution
yields 0 at a zero-denominator pixel only when the numerator is also 0
(both bands 0), the case the spec's `NDVI(red=0, nir=0) = 0` example
covers. -/
theorem C1_zero_denominator :
    (∀ red nir : ℚ, nir + red = 0 → hyperNdviPixel red nir = 0) ∧
    (∀ nir swir : ℚ, nir + swir = 0 → hyperNdwiPixel nir swir = 0) ∧
    (∀ green swir : ℚ, green + swir = 0 → hyperMndwiPixel green swir = 0) ∧
    (∀ green swir : ℚ, swir + green = 0 → hyperNdsiPixel green swir = 0) ∧
    (∀ red nir : ℚ, nir * (11/10) + red * (9/10) = 0 → hyperRedEdgeNdviPixel red nir = 0) ∧
    (∀ red nir : ℚ, red = 0 → nir = 0 → ndviPixel red nir = 0) ∧
    (∀ a b : ℚ, a = 0 → b = 0 → ndwiPixel a b = 0 ∧ mndwiPixel a b = 0 ∧ ndsiPixel a b = 0) := by
  refine ⟨?_, ?_, ?_, ?_, ?_, ?_, ?_⟩ <;> intro a b <;>
    simp_all [hyperNdviPixel, hyperNdwiPixel, hyperMndwiPixel, hyperNdsiPixel,
      hyperRedEdgeNdviPixel, ndviPixel, ndwiPixel, mndwiPixel, ndsiPixel, clip1]

/-- C1 witness: the amended statement applied at `red = 0, nir = 0`. -/
theorem C1_witness :
    (0 : ℚ) + 0 = 0 ∧ hyperNdviPixel 0 0 = 0 ∧ ndviPixel 0 0 = 0 :=
  ⟨by norm_num, C1_zero_denominator.1 0 0 (by norm_num),
    C1_zero_denominator.2.2.2.2.2.1 0 0 rfl rfl⟩

/-- C2 counterexample.  The claim says both implementations clamp every
output element to `[-1, 1]`; but the hyperspectral-analysis computation
does not clip: on the finite bands `red = [-1/2]`, `nir = [1]` (with any
green/swir) its NDVI element is `(1 - (-1/2)) / (1 + (-1/2)) = 3 > 1`. -/
theorem C2_counterexample :
    spectralNdvi (calculate_spectral_indices [-(1/2)] [0] [1] [0]) = some [3] ∧
    ¬ ((3 : ℚ) ≤ 1) := by
  constructor
  · simp only [spectralNdvi, calculate_spectral_indices, List.zipWith]
    norm_num [hyperNdviPixel]
  · norm_num

/-- C2 amended: the standalone `ndvi.py` index functions clip, so every
output element is in `[-1, 1]` for arbitrary finite bands; the
hyperspectral-analysis index computation does not clip, and its elements
are guaranteed in `[-1, 1]` only when the band values are nonnegative. -/
theorem C2_range :
    (∀ red nir : ℚ, -1 ≤ ndviPixel red nir ∧ ndviPixel red nir ≤ 1) ∧
    (∀ nir swir : ℚ, -1 ≤ ndwiPixel nir swir ∧ ndwiPixel nir swir ≤ 1) ∧
    (∀ green swir : ℚ, -1 ≤ mndwiPixel green swir ∧ mndwiPixel green swir ≤ 1) ∧
    (∀ green swir : ℚ, -1 ≤ ndsiPixel green swir ∧ ndsiPixel green swir ≤ 1) ∧
    (∀ red nir : ℚ, 0 ≤ red → 0 ≤ nir →
      -1 ≤ hyperNdviPixel red nir ∧ hyperNdviPixel red nir ≤ 1) ∧
    (∀ nir swir : ℚ, 0 ≤ nir → 0 ≤ swir →
      -1 ≤ hyperNdwiPixel nir swir ∧ hyperNdwiPixel nir swir ≤ 1) ∧
    (∀ green swir : ℚ, 0 ≤ green → 0 ≤ swir →
      -1 ≤ hyperMndwiPixel green swir ∧ hyperMndwiPixel green swir ≤ 1) ∧
    (∀ green swir : ℚ, 0 ≤ green → 0 ≤ swir →
      -1 ≤ hyperNdsiPixel green swir ∧ hyperNdsiPixel green swir ≤ 1) ∧
    (∀ red nir : ℚ, 0 ≤ red → 0 ≤ nir →
      -1 ≤ hyperRedEdgeNdviPixel red nir ∧ hyperRedEdgeNdviPixel red nir ≤ 1) := by
  refine ⟨fun _ _ => clip1_mem _, fun _ _ => clip1_mem _, fun _ _ => clip1_mem _,
    fun _ _ => clip1_mem _, ?_, ?_, ?_, ?_, ?_⟩
  · intro red nir hr hn
    unfold hyperNdviPixel
    split
    · exact ratio_bounds nir red hn hr (by assumption)
    · norm_num
  · intro nir swir hn hs
    unfold hyperNdwiPixel
    split
    · exact ratio_bounds nir swir hn hs (by assumption)
    · norm_num
  · intro green swir hg hs
    unfold hyperMndwiPixel
    split
    · exact ratio_bounds green swir hg hs (by assumption)
    · norm_num
  · intro green swir hg hs
    unfold hyperNdsiPixel
    split
    · exact ratio_bounds swir green hs hg (by assumption)
    · norm_num
  · intro red nir hr hn
    unfold hyperRedEdgeNdviPixel
    split
    · exact ratio_bounds (nir * (11/10)) (red * (9/10)) (by positivity) (by positivity)
        (by assumption)
    · norm_num

/-- C2 witness: the amended statement applied at nonnegative concrete
bands `red = 1, nir = 3`. -/
theorem C2_witness :
    (0 : ℚ) ≤ 1 ∧ -1 ≤ hyperNdviPixel 1 3 ∧ hyperNdviPixel 1 3 ≤ 1 :=
  ⟨by norm_num,
    (C2_range.2.2.2.2.1 1 3 (by norm_num) (by norm_num)).1,
    (C2_range.2.2.2.2.1 1 3 (by norm_num) (by norm_num)).2⟩

/-- C3 counterexample.  The claim says the NDSI function computes
`(swir - green) / (swir + green)`, positive when `swir > green`; but
`calculate_ndsi` in `ndvi.py` on `green = [0]`, `swir = [1]` (sum `1 ≠ 0`)
returns `[-1]`, while the claimed formula gives `(1-0)/(1+0) = 1`. -/
theorem C3_counterexample :
    calculate_ndsi [0] [1] = [-1] ∧ ((1 : ℚ) - 0) / (1 + 0) = 1 ∧ (-1 : ℚ) ≠ 1 := by
  refine ⟨?_, by norm_num, by norm_num⟩
  simp only [calculate_ndsi, List.zipWith, ndsiPixel, clip1]
  norm_num [min_def, max_def]

/-- C3 amended: only the hyperspectral-analysis NDSI computes
`(swir - green) / (swir + green)` (positive when `swir > green ≥ 0`); the
standalone `calculate_ndsi` in `ndvi.py` computes the sign-flipped
`(green - swir) / (green + swir)` (identical to MNDWI), which is negative
when `swir > green ≥ 0`. -/
theorem C3_ndsi_formula :
    (∀ green swir : ℚ, swir + green ≠ 0 →
      hyperNdsiPixel green swir = (swir - green) / (swir + green)) ∧
    (∀ green swir : ℚ, green + swir ≠ 0 →
      ndsiPixel green swir = clip1 ((green - swir) / (green + swir))) ∧
    (∀ green swir : ℚ, 0 ≤ green → green < swir → 0 < hyperNdsiPixel green swir) ∧
    (∀ green swir : ℚ, 0 ≤ green → green < swir → ndsiPixel green swir < 0) := by
  refine ⟨?_, ?_, ?_, ?_⟩
  · intro green swir h
    simp [hyperNdsiPixel, h]
  · intro green swir h
    simp [ndsiPixel, h]
  · intro green swir hg hlt
    have hpos : 0 < swir + green := by linarith
    simp only [hyperNdsiPixel, ne_eq, hpos.ne', not_false_iff, if_pos]
    exact div_pos (by linarith) hpos
  · intro green swir hg hlt
    have hpos : 0 < green + swir := by linarith
    have hne : green + swir ≠ 0 := hpos.ne'
    simp only [ndsiPixel, hne, if_neg, if_false]
    exact clip1_neg (div_neg_of_neg_of_pos (by linarith) hpos)

/-- C3 witness: the amended statement applied at `green = 0, swir = 1`. -/
theorem C3_witness :
    (0 : ℚ) ≤ 0 ∧ (0 : ℚ) < 1 ∧ 0 < hyperNdsiPixel 0 1 ∧ ndsiPixel 0 1 < 0 :=
  ⟨le_refl 0, by norm_num, C3_ndsi_formula.2.2.1 0 1 (le_refl 0) (by norm_num),
    C3_ndsi_formula.2.2.2 0 1 (le_refl 0) (by norm_num)⟩

/-- C4: the per-pixel land-cover label is decided first-match-wins in the
exact source order — `ndsi > 0.4` Snow/Ice; then `mndwi > 0.3 or ndwi > 0.3`
Water; then `ndvi > 0.6` Dense Vegetation; then `ndvi > 0.2` Sparse
Vegetation; then `ndvi < -0.1` Urban/Built-up; else Bare Soil/Rock.  In
particular rule 1 wins whenever `ndsi > 0.4`, regardless of the other
index values. -/
theorem C4_decision_order (ndvi ndwi mndwi ndsi : ℚ) :
    (ndsi > 2/5 →
      classifyPixel ndvi ndwi mndwi ndsi = 2 ∧ labelName 2 = "Snow/Ice") ∧
    (ndsi ≤ 2/5 → (mndwi > 3/10 ∨ ndwi > 3/10) →
      classifyPixel ndvi ndwi mndwi ndsi = 1 ∧ labelName 1 = "Water") ∧
    (ndsi ≤ 2/5 → mndwi ≤ 3/10 → ndwi ≤ 3/10 → ndvi > 3/5 →
      classifyPixel ndvi ndwi mndwi ndsi = 3 ∧ labelName 3 = "Dense Vegetation") ∧
    (ndsi ≤ 2/5 → mndwi ≤ 3/10 → ndwi ≤ 3/10 → ndvi ≤ 3/5 → ndvi > 1/5 →
      classifyPixel ndvi ndwi mndwi ndsi = 4 ∧ labelName 4 = "Sparse Vegetation") ∧
    (ndsi ≤ 2/5 → mndwi ≤ 3/10 → ndwi ≤ 3/10 → ndvi ≤ 1/5 → ndvi < -(1/10) →
      classifyPixel ndvi ndwi mndwi ndsi = 6 ∧ labelName 6 = "Urban/Built-up") ∧
    (ndsi ≤ 2/5 → mndwi ≤ 3/10 → ndwi ≤ 3/10 → ndvi ≤ 1/5 → -(1/10) ≤ ndvi →
      classifyPixel ndvi ndwi mndwi ndsi = 5 ∧ labelName 5 = "Bare Soil/Rock") := by
  unfold classifyPixel
  refine ⟨?_, ?_, ?_, ?_, ?_, ?_⟩
  · intro h1
    rw [if_pos h1]
    exact ⟨rfl, rfl⟩
  · intro h1 h2
    rw [if_neg (not_lt.mpr h1), if_pos h2]
    exact ⟨rfl, rfl⟩
  · intro h1 h2 h3 h4
    rw [if_neg (not_lt.mpr h1), if_neg (not_or.mpr ⟨not_lt.mpr h2, not_lt.mpr h3⟩),
      if_pos h4]
    exact ⟨rfl, rfl⟩
  · intro h1 h2 h3 h4 h5
    rw [if_neg (not_lt.mpr h1), if_neg (not_or.mpr ⟨not_lt.mpr h2, not_lt.mpr h3⟩),
      if_neg (not_lt.mpr h4), if_pos h5]
    exact ⟨rfl, rfl⟩
  · intro h1 h2 h3 h4 h5
    rw [if_neg (not_lt.mpr h1), if_neg (not_or.mpr ⟨not_lt.mpr h2, not_lt.mpr h3⟩),
      if_neg (not_lt.mpr (le_trans h4 (by norm_num))), if_neg (not_lt.mpr h4),
      if_pos h5]
    exact ⟨rfl, rfl⟩
  · intro h1 h2 h3 h4 h5
    rw [if_neg (not_lt.mpr h1), if_neg (not_or.mpr ⟨not_lt.mpr h2, not_lt.mpr h3⟩),
      if_neg (not_lt.mpr (le_trans h4 (by norm_num))), if_neg (not_lt.mpr h4),
      if_neg (not_lt.mpr h5)]
    exact ⟨rfl, rfl⟩

/-- C4 witness: a pixel with `ndsi = 0.5, ndvi = 0.8, ndwi = 0.5` (and
`mndwi = 0`) classifies as Snow/Ice although the Water and Dense
Vegetation conditions also hold. -/
theorem C4_witness :
    (1/2 : ℚ) > 2/5 ∧ classifyPixel (4/5) (1/2) 0 (1/2) = 2 ∧
    labelName 2 = "Snow/Ice" :=
  ⟨by norm_num, ((C4_decision_order (4/5) (1/2) 0 (1/2)).1 (by norm_num)).1,
    ((C4_decision_order (4/5) (1/2) 0 (1/2)).1 (by norm_num)).2⟩

/-- C5: the NDVI interpretation cascade sends every value in `[0.4, 0.6)`
— in particular 0.4 exactly, where the `< 0.4` check fails — to status
Good with score 75. -/
theorem C5_boundary (x : ℚ) (h1 : 2/5 ≤ x) (h2 : x < 3/5) :
    (interpretNdviVal x).status = "Good" ∧ (interpretNdviVal x).health_score = 75 := by
  simp only [interpretNdviVal]
  rw [if_neg (not_lt.mpr (le_trans (by norm_num) h1)),
    if_neg (not_lt.mpr (le_trans (by norm_num) h1)),
    if_neg (not_lt.mpr h1), if_pos h2]
  exact ⟨rfl, rfl⟩

/-- C5 witness: NDVI = 0.4 exactly is interpreted as Good with score 75. -/
theorem C5_witness :
    (2/5 : ℚ) ≤ 2/5 ∧ (2/5 : ℚ) < 3/5 ∧
    (interpretNdviVal (2/5)).status = "Good" ∧
    (interpretNdviVal (2/5)).health_score = 75 :=
  ⟨le_refl _, by norm_num, (C5_boundary (2/5) (le_refl _) (by norm_num)).1,
    (C5_boundary (2/5) (le_refl _) (by norm_num)).2⟩

/-- C6: every successfully interpreted scalar gets a confidence in
`[60, 95]` from each of the three interpretation functions, and the
failure path of each returns the neutral placeholder — status Unknown,
score 50, confidence 50 — instead of raising. -/
theorem C6_confidence_bounds :
    (∀ x : ℚ, 60 ≤ (interpretNdviVal x).confidence ∧ (interpretNdviVal x).confidence ≤ 95) ∧
    (∀ x : ℚ, 60 ≤ (interpretNdwiVal x).confidence ∧ (interpretNdwiVal x).confidence ≤ 95) ∧
    (∀ x : ℚ, 60 ≤ (interpretNdsiVal x).confidence ∧ (interpretNdsiVal x).confidence ≤ 95) ∧
    ((interpret_ndvi none).status = "Unknown" ∧ (interpret_ndvi none).health_score = 50 ∧
      (interpret_ndvi none).confidence = 50) ∧
    ((interpret_ndwi none).status = "Unknown" ∧ (interpret_ndwi none).water_score = 50 ∧
      (interpret_ndwi none).confidence = 50) ∧
    ((interpret_ndsi none).status = "Unknown" ∧ (interpret_ndsi none).snow_score = 50 ∧
      (interpret_ndsi none).confidence = 50) :=
  ⟨fun _ => conf_bounds _, fun _ => conf_bounds _, fun _ => conf_bounds _,
    ⟨rfl, rfl, rfl⟩, ⟨rfl, rfl, rfl⟩, ⟨rfl, rfl, rfl⟩⟩

/-- C7 counterexample.  The claim says an index function called with empty
required bands signals a MissingData failure and produces no array; but
`calculate_ndvi` on empty bands returns the empty array to its caller
(inside the source, the logging line raises on the empty result and the
handler returns `np.array([])`), so the caller observes an empty result,
not an explicit failure. -/
theorem C7_counterexample :
    calculate_ndvi [] [] = ([] : List ℚ) ∧ (calculate_ndvi [] []).length = 0 :=
  ⟨rfl, rfl⟩

/-- C7 amended: the hyperspectral `calculate_spectral_indices` does treat
empty `red`/`nir` as an explicit missing-data condition (internal
`ValueError`, surfaced to its caller as an empty mapping, here `none`);
the standalone `ndvi.py` index functions instead return an empty array on
empty input. -/
theorem C7_empty_input :
    (∀ red green nir swir : List ℚ, red = [] ∨ nir = [] →
      calculate_spectral_indices red green nir swir = none) ∧
    (∀ xs : List ℚ, calculate_ndvi [] xs = [] ∧ calculate_ndvi xs [] = [] ∧
      calculate_ndwi [] xs = [] ∧ calculate_ndwi xs [] = [] ∧
      calculate_mndwi [] xs = [] ∧ calculate_mndwi xs [] = [] ∧
      calculate_ndsi [] xs = [] ∧ calculate_ndsi xs [] = []) := by
  constructor
  · intro red green nir swir h
    unfold calculate_spectral_indices
    rcases h with h | h <;> subst h <;> simp
  · intro xs
    simp [calculate_ndvi, calculate_ndwi, calculate_mndwi, calculate_ndsi]

/-- C7 witness: the amended statement at fully empty inputs. -/
theorem C7_witness :
    calculate_spectral_indices [] [] [] [] = none ∧ calculate_ndvi [] [] = [] :=
  ⟨C7_empty_input.1 [] [] [] [] (Or.inl rfl), (C7_empty_input.2 []).1⟩

/-- C8 counterexample.  The claim says each specific-pest risk scales the
0.4/0.35/0.25-weighted overall risk; but the source scales
`np.mean(list(risk_factors.values()))`, the unweighted mean.  At the
reachable factor combination environmental = 0.9 (temp 28, humidity 85,
latitude 10), spectral_stress = 0 (mean 0.7, std 0.05, ndwi 0.3),
seasonal = 0.4 (latitude 10, rice, month 1), with humidity 85 > 80, the
rice brown-planthopper risk is `0.9 × mean = 0.9 × 13/30 = 39/100`,
whereas `0.9 × overall = 0.9 × 23/50 = 207/500`. -/
theorem C8_counterexample :
    assessEnvironmentalPestRisk 28 85 10 = 9/10 ∧
    assessSpectralStress (7/10) (1/20) (3/10) = 0 ∧
    assessSeasonalPestRisk 10 "rice" 1 = 2/5 ∧
    (specificPestRisks ⟨9/10, 0, 2/5⟩ "rice" 28 85).lookup "brown_planthopper"
      = some (39/100) ∧
    overallPestRisk ⟨9/10, 0, 2/5⟩ * (9/10) = 207/500 ∧
    (39/100 : ℚ) ≠ 207/500 := by
  refine ⟨?_, ?_, ?_, ?_, ?_, by norm_num⟩
  · norm_num [assessEnvironmentalPestRisk, min_def, abs]
  · norm_num [assessSpectralStress, min_def]
  · norm_num [assessSeasonalPestRisk]
  · norm_num [specificPestRisks, baseRisk, List.lookup]
  · norm_num [overallPestRisk, min_def]

/-- C8 amended: for every crop type, each specific-pest risk scales the
UNWEIGHTED mean `(environmental + spectral_stress + seasonal) / 3` of the
three factors by the crop/pest multiplier — rice: brown-planthopper 0.9
if humidity > 80 else 0.6, rice-blast 0.8 if humidity > 75 and temp > 25
else 0.4, stem-borer 0.7, leaf-folder 0.6 if temp > 28 else 0.4;
cotton: bollworm 0.8 if 25 < temp < 35 else 0.5, aphids 0.7 if
humidity < 60 else 0.4, whitefly 0.9 if temp > 30 else 0.6, thrips 0.6;
wheat: rust 0.8 if humidity > 70 else 0.3, aphids 0.7, termites 0.5 if
humidity < 50 else 0.3, army-worm 0.6 if temp > 25 else 0.4; every other
crop type: aphids 0.6, spider-mites 0.5 if humidity < 50 else 0.3,
thrips 0.5, fungal-diseases 0.7 if humidity > 75 else 0.4.  The
0.4/0.35/0.25-weighted combination is used only for the separate
overall-risk figure. -/
theorem C8_pest_scaling (rf : RiskFactors) (cropType : String) (temp humidity : ℚ) :
    (specificPestRisks rf "rice" temp humidity).lookup "brown_planthopper"
      = some (if humidity > 80 then baseRisk rf * (9/10) else baseRisk rf * (3/5)) ∧
    (specificPestRisks rf "rice" temp humidity).lookup "rice_blast"
      = some (if humidity > 75 ∧ temp > 25 then baseRisk rf * (4/5) else baseRisk rf * (2/5)) ∧
    (specificPestRisks rf "rice" temp humidity).lookup "stem_borer"
      = some (baseRisk rf * (7/10)) ∧
    (specificPestRisks rf "rice" temp humidity).lookup "leaf_folder"
      = some (if temp > 28 then baseRisk rf * (3/5) else baseRisk rf * (2/5)) ∧
    (specificPestRisks rf "cotton" temp humidity).lookup "bollworm"
      = some (if 25 < temp ∧ temp < 35 then baseRisk rf * (4/5) else baseRisk rf * (1/2)) ∧
    (specificPestRisks rf "cotton" temp humidity).lookup "aphids"
      = some (if humidity < 60 then baseRisk rf * (7/10) else baseRisk rf * (2/5)) ∧
    (specificPestRisks rf "cotton" temp humidity).lookup "whitefly"
      = some (if temp > 30 then baseRisk rf * (9/10) else baseRisk rf * (3/5)) ∧
    (specificPestRisks rf "cotton" temp humidity).lookup "thrips"
      = some (baseRisk rf * (3/5)) ∧
    (specificPestRisks rf "wheat" temp humidity).lookup "rust"
      = some (if humidity > 70 then baseRisk rf * (4/5) else baseRisk rf * (3/10)) ∧
    (specificPestRisks rf "wheat" temp humidity).lookup "aphids"
      = some (baseRisk rf * (7/10)) ∧
    (specificPestRisks rf "wheat" temp humidity).lookup "termites"
      = some (if humidity < 50 then baseRisk rf * (1/2) else baseRisk rf * (3/10)) ∧
    (specificPestRisks rf "wheat" temp humidity).lookup "army_worm"
      = some (if temp > 25 then baseRisk rf * (3/5) else baseRisk rf * (2/5)) ∧
    (cropType ≠ "rice" → cropType ≠ "cotton" → cropType ≠ "wheat" →
      (specificPestRisks rf cropType temp humidity).lookup "aphids"
        = some (baseRisk rf * (3/5)) ∧
      (specificPestRisks rf cropType temp humidity).lookup "spider_mites"
        = some (if humidity < 50 then baseRisk rf * (1/2) else baseRisk rf * (3/10)) ∧
      (specificPestRisks rf cropType temp humidity).lookup "thrips"
        = some (baseRisk rf * (1/2)) ∧
      (specificPestRisks rf cropType temp humidity).lookup "fungal_diseases"
        = some (if humidity > 75 then baseRisk rf * (7/10) else baseRisk rf * (2/5))) ∧
    baseRisk rf = (rf.environmental + rf.spectral_stress + rf.seasonal) / 3 ∧
    overallPestRisk rf
      = min (rf.environmental * (2/5) + rf.spectral_stress * (7/20) + rf.seasonal * (1/4)) 1 := by
  refine ⟨?_, ?_, ?_, ?_, ?_, ?_, ?_, ?_, ?_, ?_, ?_, ?_, ?_, rfl, rfl⟩ <;>
    try simp [specificPestRisks, List.lookup]
  intro h1 h2 h3
  refine ⟨?_, ?_, ?_, ?_⟩ <;> simp [specificPestRisks, h1, h2, h3, List.lookup]

/-- C8 witness: the amended statement applied at the concrete crop type
"maize" (taking the general fallback table: "maize" differs from "rice",
"cotton" and "wheat") with the reachable factors (0.9, 0, 0.4), temp 28,
humidity 85: the general aphids risk is `mean × 0.6 = 13/30 × 3/5 = 13/50`. -/
theorem C8_witness :
    ("maize" : String) ≠ "rice" ∧ ("maize" : String) ≠ "cotton" ∧
    ("maize" : String) ≠ "wheat" ∧
    (specificPestRisks ⟨9/10, 0, 2/5⟩ "maize" 28 85).lookup "aphids"
      = some (baseRisk ⟨9/10, 0, 2/5⟩ * (3/5)) ∧
    baseRisk ⟨9/10, 0, 2/5⟩ * (3/5) = 13/50 :=
  ⟨by decide, by decide, by decide,
    ((C8_pest_scaling ⟨9/10, 0, 2/5⟩ "maize" 28
        85).2.2.2.2.2.2.2.2.2.2.2.2.1
      (by decide) (by decide) (by decide)).1,
    by norm_num [baseRisk]⟩

/-- C9: calling `predict` in the Untrained state (`self.model is None`)
yields the model-not-trained failure record — the raised
`ValueError("Model not trained. Call train_model() first.")` surfaced by
the handler with neutral placeholder fields — and never a successful
prediction (`PredictOutcome.ok`). -/
theorem C9_untrained_predict (features : List ℚ) :
    predict none features = PredictOutcome.err
      { error := modelNotTrainedMsg, health_score := 50, status := "Unknown", confidence := 50 } :=
  rfl

/-- Per-pixel land-cover labels always land in `{1, ..., 6}`. -/
theorem classifyPixel_bounds (a b c d : ℚ) :
    1 ≤ classifyPixel a b c d ∧ classifyPixel a b c d ≤ 6 := by
  unfold classifyPixel
  split_ifs <;> norm_num

/-- C10: whenever the land-cover classifier produces a label array (at
least one index array non-empty), every per-pixel label is one of the six
codes 1–6 — Water, Snow/Ice, Dense Vegetation, Sparse Vegetation, Bare
Soil/Rock, Urban/Built-up — and never the initial code 0, so the name
"Unknown" never enters the aggregated statistics. -/
theorem C10_no_unknown_label (ndvi ndwi mndwi ndsi : List ℚ) (ls : List ℕ)
    (h : landCoverLabels ndvi ndwi mndwi ndsi = some ls) :
    ∀ l ∈ ls, l ≠ 0 ∧ 1 ≤ l ∧ l ≤ 6 ∧ labelName l ≠ "Unknown" := by
  intro l hl
  unfold landCoverLabels at h
  cases hmin : minCommonLength ndvi ndwi mndwi ndsi with
  | none =>
    rw [hmin] at h
    cases h
  | some n =>
    rw [hmin] at h
    simp only [Option.some.injEq] at h
    subst h
    rw [List.mem_map] at hl
    obtain ⟨i, _, rfl⟩ := hl
    have hb := classifyPixel_bounds
      ((backfill ndvi n (1/2)).getD i 0) ((backfill ndwi n 0).getD i 0)
      ((backfill mndwi n 0).getD i 0) ((backfill ndsi n 0).getD i 0)
    refine ⟨by omega, hb.1, hb.2, ?_⟩
    have h1 := hb.1
    have h2 := hb.2
    interval_cases (classifyPixel ((backfill ndvi n (1/2)).getD i 0)
      ((backfill ndwi n 0).getD i 0) ((backfill mndwi n 0).getD i 0)
      ((backfill ndsi n 0).getD i 0)) <;> decide

/-- C10 witness: a one-pixel input (only NDVI present, value 0.5) yields
the label array `[4]` (Sparse Vegetation), whose label is valid and not
Unknown. -/
theorem C10_witness :
    landCoverLabels [1/2] [] [] [] = some [4] ∧
    ((4 : ℕ) ≠ 0 ∧ 1 ≤ (4 : ℕ) ∧ (4 : ℕ) ≤ 6 ∧ labelName 4 ≠ "Unknown") :=
  ⟨by
      simp [landCoverLabels, minCommonLength, List.min?, backfill, List.range_succ, classifyPixel]
      norm_num,
    C10_no_unknown_label [1/2] [] [] [] [4]
      (by
        simp [landCoverLabels, minCommonLength, List.min?, backfill, List.range_succ,
          classifyPixel]
        norm_num)
      4 (by decide)⟩

end CropHealth
